import Mathlib

/-!
Verification of the FocusStudy note-ingestion and prompt-composition pipeline
(`src/app.py`).

The embedding is shallow: external capabilities (the PDF parser's page
texts, the generation service's per-attempt outcome) are passed in as
explicit data, and every function under verification is a transcription of
the corresponding Python function.  Python `str.strip()` is modelled by
`pyStrip` (drop leading and trailing whitespace), Python `str.replace` by
an explicit left-to-right non-overlapping replacement on character lists,
Python dict `.get` with a default by `List.lookup` followed by
`Option.getD`.
-/

namespace FocusStudy

/-! ## Python string primitives -/

/-- The characters Python `str.strip()` removes (the ASCII whitespace
set). -/
def pySpace (c : Char) : Bool :=
  c = ' ' || c = '\t' || c = '\n' || c = '\r' || c = '\x0b' || c = '\x0c'

/-- Python `s.strip()`: drop leading and trailing whitespace. -/
def pyStrip (s : String) : String :=
  ⟨((s.data.dropWhile pySpace).reverse.dropWhile pySpace).reverse⟩

/-- Does `pat` occur as a prefix of `s`?  (Used by the model of Python
`str.replace`.) -/
def pyStartsWith : List Char → List Char → Bool
  | [], _ => true
  | _ :: _, [] => false
  | a :: pat, b :: s => if a = b then pyStartsWith pat s else false

/-- Fuelled core of Python `str.replace`: scan left to right, replacing each
non-overlapping occurrence of `pat` by `rep`.  The fuel is the length of the
scanned list, which suffices because each step consumes at least one
character when `pat` is non-empty. -/
def replaceFuel : Nat → List Char → List Char → List Char → List Char
  | 0, s, _, _ => s
  | _ + 1, [], _, _ => []
  | fuel + 1, c :: rest, pat, rep =>
    if pat ≠ [] ∧ pyStartsWith pat (c :: rest) then
      rep ++ replaceFuel fuel ((c :: rest).drop pat.length) pat rep
    else
      c :: replaceFuel fuel rest pat rep

/-- Python `s.replace(pat, rep)` for a non-empty pattern: left-to-right,
non-overlapping. -/
def pyReplace (s pat rep : String) : String :=
  ⟨replaceFuel s.data.length s.data pat.data rep.data⟩

/-! ## TextExtractor (`extract_pdf_text`, app.py lines 24–35)

The external parse of the byte stream is represented by `PdfParse`: either
the parser raised (any exception) or it produced the per-page extracted
texts (Python's `page.extract_text() or ""` already coerces a missing text
to `""`, so a page is just a `String`). -/

/-- Outcome of handing the uploaded byte stream to the external PDF
parser. -/
inductive PdfParse where
  | failure : PdfParse
  | pages : List String → PdfParse

/-- The accumulation loop of `extract_pdf_text`: strip each page, keep the
non-empty results in order (app.py lines 28–32). -/
def pdf_parts : List String → List String
  | [] => []
  | page :: rest =>
    let t := pyStrip page
    if t = "" then pdf_parts rest else t :: pdf_parts rest

/-- Transcription of `extract_pdf_text` (app.py lines 24–35): join surviving pages with a
blank line and trim; any parser exception is absorbed into `""`. -/
def extract_pdf_text : PdfParse → String
  | .failure => ""
  | .pages ps => pyStrip (String.intercalate "\n\n" (pdf_parts ps))

/-! ## PromptComposer (`build_prompt`, app.py lines 38–53) -/

/-- The constant preamble `base` of `build_prompt` (app.py lines 39–44). -/
def base_prompt : String :=
  "You are FocusStudy AI, an exam-focused tutor.\n" ++
  "Use ONLY the provided notes. If notes do not contain the answer, say:\n" ++
  "\"I can\x27t find this in the provided notes.\" Then give a short general hint (2-3 lines max).\n" ++
  "Format cleanly using headings and bullet points.\n"

/-- The literal mode dictionary of `build_prompt` (app.py lines 46–49). -/
def mode_table : List (String × String) :=
  [("explain", "Mode: EXPLAIN. Explain simply and give one small example.\n"),
   ("exam", "Mode: EXAM READY. Write a structured exam answer with headings + key points.\n"),
   ("revision", "Mode: REVISION. Give crisp revision bullets.\n")]

/-- The mode line: `dict.get(mode, "Mode: EXPLAIN.\n")` (app.py line 50). -/
def mode_line (mode : String) : String :=
  (mode_table.lookup mode).getD "Mode: EXPLAIN.\n"

/-- The notes block of `build_prompt` (app.py line 52): literal notes text
when `notes_text.strip()` is truthy, the `(none)` placeholder otherwise. -/
def notes_block (notes_text : String) : String :=
  if pyStrip notes_text = "" then "\nNOTES: (none)\n"
  else "\nNOTES:\n" ++ notes_text ++ "\n"

/-- Transcription of `build_prompt` (app.py lines 38–53): the final f-string
`f"{base}{mode_line}{notes_block}\nQUESTION:\n{question}\n\nANSWER:\n"`. -/
def build_prompt (mode question notes_text : String) : String :=
  base_prompt ++ mode_line mode ++ notes_block notes_text ++
    "\nQUESTION:\n" ++ question ++ "\n\nANSWER:\n"

/-! ## ResponseFormatter (`format_html`, app.py lines 56–62) -/

/-- Transcription of `format_html` (app.py lines 56–62): guard the empty string, normalize
CRLF, replace double breaks, then single breaks, in that order. -/
def format_html (text : String) : String :=
  if text = "" then ""
  else
    let t1 := pyReplace text "\r\n" "\n"
    let t2 := pyReplace t1 "\n\n" "<br><br>"
    pyReplace t2 "\n" "<br>"

/-! ## GenerationClient (`gen_with_retry`, app.py lines 65–74)

The external call `client.models.generate_content` is an oracle from the
attempt index to an outcome: `.ok t` is a response whose text payload (after
the source's `getattr(resp, "text", "") or ""` coercion) is `t`, `.error e`
is a raised exception with message `e`.  The trace records the returned or
raised value, the number of attempts made, and the sleeps performed (in
order), so the retry policy is fully observable. -/

instance {ε α : Type} [DecidableEq ε] [DecidableEq α] :
    DecidableEq (Except ε α) := fun a b =>
  match a, b with
  | .ok a, .ok b =>
    if h : a = b then .isTrue (h ▸ rfl)
    else .isFalse fun hab => h (Except.ok.inj hab)
  | .error a, .error b =>
    if h : a = b then .isTrue (h ▸ rfl)
    else .isFalse fun hab => h (Except.error.inj hab)
  | .ok _, .error _ => .isFalse fun h => Except.noConfusion h
  | .error _, .ok _ => .isFalse fun h => Except.noConfusion h

/-- Observable behaviour of one `gen_with_retry` call. -/
structure RetryTrace where
  result : Except (Option String) String
  attempts : Nat
  sleeps : List Nat
  deriving Repr, DecidableEq

/-- The loop of `gen_with_retry`: `i` is the 0-based attempt index (`i` of
the Python `for i in range(tries)`), `remaining` the iterations left,
`lastErr` the current `last_err` (initially `None`).  On failure the code
sleeps `2 * (i + 1)` even on the final iteration, then raises `last_err`. -/
def genRetryAux (oracle : Nat → Except String String) :
    Nat → Nat → Option String → RetryTrace
  | _, 0, lastErr => ⟨.error lastErr, 0, []⟩
  | i, remaining + 1, _ =>
    match oracle i with
    | .ok t => ⟨.ok t, 1, []⟩
    | .error e =>
      let rest := genRetryAux oracle (i + 1) remaining (some e)
      ⟨rest.result, rest.attempts + 1, 2 * (i + 1) :: rest.sleeps⟩

/-- Transcription of `gen_with_retry` (app.py lines 65–74); every caller uses the default
`tries = 3`. -/
def gen_with_retry (oracle : Nat → Except String String) (tries : Nat) :
    RetryTrace :=
  genRetryAux oracle 0 tries none

/-! ## ImageTranscriber (`ocr_image_with_gemini`, app.py lines 77–85)

Image decoding and the fixed OCR prompt are opaque; the oracle closes over
them.  The function itself has no exception handler: a failure raised by
`gen_with_retry` propagates.  On success the source returns
`(text or "").strip()`, i.e. the trimmed text. -/

/-- Transcription of `ocr_image_with_gemini` (app.py lines 77–85). -/
def ocr_image_with_gemini (oracle : Nat → Except String String) :
    Except (Option String) String :=
  match (gen_with_retry oracle 3).result with
  | .ok t => .ok (pyStrip t)
  | .error e => .error e

/-! ## RequestOrchestrator (`home`, app.py lines 88–130, POST path)

A request carries the raw form fields, the parse outcome of an attached PDF
(or `none` when no PDF is attached), whether an image is attached, and the
two generation oracles (one consumed by OCR, one by answer generation).
The result records what the handler rendered plus which collaborators were
invoked and, when composition was reached, the notes and prompt used. -/

/-- Python `str(e)` applied to the raised retry error (`last_err` can only
be `None` when `tries = 0`, which no caller does). -/
def str_of_err : Option String → String
  | some e => e
  | none => "None"

/-- Observable outcome of one POST request. -/
structure HomeResult where
  answer_html : String
  error : String
  extractCalled : Bool
  ocrCalled : Bool
  genCalled : Bool
  notesUsed : Option String
  promptUsed : Option String
  deriving Repr, DecidableEq

/-- Steps 4–6 of the handler (app.py lines 122–128): compose the prompt and
generate the answer. -/
def home_generate (mode q notes : String) (extractCalled ocrCalled : Bool)
    (genOracle : Nat → Except String String) : HomeResult :=
  let prompt := build_prompt mode q notes
  match (gen_with_retry genOracle 3).result with
  | .ok t =>
    { answer_html := format_html t, error := "",
      extractCalled := extractCalled, ocrCalled := ocrCalled,
      genCalled := true, notesUsed := some notes, promptUsed := some prompt }
  | .error e =>
    { answer_html := "", error := "Gemini error: " ++ str_of_err e,
      extractCalled := extractCalled, ocrCalled := ocrCalled,
      genCalled := true, notesUsed := some notes, promptUsed := some prompt }

/-- Step 3 of the handler (app.py lines 113–120): the image branch, then
generation. -/
def home_after_pdf (mode q notes : String) (extractCalled : Bool)
    (image : Bool) (ocrOracle genOracle : Nat → Except String String) :
    HomeResult :=
  if image then
    match ocr_image_with_gemini ocrOracle with
    | .error e =>
      { answer_html := "", error := "Image OCR failed: " ++ str_of_err e,
        extractCalled := extractCalled, ocrCalled := true, genCalled := false,
        notesUsed := none, promptUsed := none }
    | .ok extracted =>
      let notes2 :=
        if extracted = "" then notes
        else if notes = "" then extracted
        else pyStrip (notes ++ "\n\n" ++ extracted)
      home_generate mode q notes2 extractCalled true genOracle
  else
    home_generate mode q notes extractCalled false genOracle

/-- The POST path of `home` (app.py lines 93–130): validate the question,
run the PDF step, the image step, then compose and generate. -/
def home (mode question : String) (pdf : Option PdfParse) (image : Bool)
    (ocrOracle genOracle : Nat → Except String String) : HomeResult :=
  let q := pyStrip question
  if q = "" then
    { answer_html := "", error := "Please type your question.",
      extractCalled := false, ocrCalled := false, genCalled := false,
      notesUsed := none, promptUsed := none }
  else
    match pdf with
    | some p =>
      let pdf_text := extract_pdf_text p
      if pdf_text = "" then
        { answer_html := "",
          error := "This PDF looks scanned/handwritten. Please upload clear images instead.",
          extractCalled := true, ocrCalled := false, genCalled := false,
          notesUsed := none, promptUsed := none }
      else
        home_after_pdf mode q pdf_text true image ocrOracle genOracle
    | none =>
      home_after_pdf mode q "" false image ocrOracle genOracle



/-! ## Shared helper lemmas and concrete oracles -/

/-- Complete case analysis of `gen_with_retry` at the default `tries = 3`. -/
theorem gen_with_retry_three (oracle : Nat → Except String String) :
    gen_with_retry oracle 3 =
      match oracle 0 with
      | .ok t => ⟨.ok t, 1, []⟩
      | .error _ =>
        match oracle 1 with
        | .ok t => ⟨.ok t, 2, [2]⟩
        | .error _ =>
          match oracle 2 with
          | .ok t => ⟨.ok t, 3, [2, 4]⟩
          | .error e2 => ⟨.error (some e2), 3, [2, 4, 6]⟩ := by
  cases h0 : oracle 0 <;> cases h1 : oracle 1 <;> cases h2 : oracle 2 <;>
    simp [gen_with_retry, genRetryAux, h0, h1, h2]

/-- String append is associative (data-level). -/
theorem str_append_assoc (a b c : String) : a ++ b ++ c = a ++ (b ++ c) := by
  apply String.ext
  simp [String.data_append, List.append_assoc]

/-- An oracle that fails on the first two attempts and succeeds on the third. -/
def oracleFFO : Nat → Except String String := fun i =>
  if i < 2 then .error ("e" ++ toString i) else .ok "hi"

/-- An oracle whose every attempt fails. -/
def oracleAllFail : Nat → Except String String := fun _ =>
  .error "boom"

/-- An oracle whose every attempt succeeds. -/
def oracleOk : Nat → Except String String := fun _ => .ok "answer"

/-! ## Claim theorems -/

/-- C1: at most 3 attempts; a success at attempt k (the earlier attempts
having failed) returns that attempt text after exactly k+1 attempts; three
failures raise the last observed failure unchanged. -/
theorem gen_with_retry_attempt_policy (oracle : Nat → Except String String) :
    (gen_with_retry oracle 3).attempts ≤ 3 ∧
    (∀ k t, k < 3 → oracle k = Except.ok t →
      (∀ j, j < k → ∃ e, oracle j = Except.error e) →
      (gen_with_retry oracle 3).result = Except.ok t ∧
      (gen_with_retry oracle 3).attempts = k + 1) ∧
    (∀ e0 e1 e2, oracle 0 = Except.error e0 → oracle 1 = Except.error e1 →
      oracle 2 = Except.error e2 →
      (gen_with_retry oracle 3).result = Except.error (some e2)) := by
  have H := gen_with_retry_three oracle
  refine ⟨?_, ?_, ?_⟩
  · rw [H]
    cases h0 : oracle 0 <;> cases h1 : oracle 1 <;> cases h2 : oracle 2 <;> simp
  · intro k t hk hok hprev
    interval_cases k
    · rw [H]; simp [hok]
    · obtain ⟨e0, he0⟩ := hprev 0 (by omega)
      rw [H]; simp [he0, hok]
    · obtain ⟨e0, he0⟩ := hprev 0 (by omega)
      obtain ⟨e1, he1⟩ := hprev 1 (by omega)
      rw [H]; simp [he0, he1, hok]
  · intro e0 e1 e2 he0 he1 he2
    rw [H]; simp [he0, he1, he2]

/-- C1 witness: with two failures then a success, the client returns the
third attempt text after exactly 3 attempts. -/
theorem gen_with_retry_attempt_policy_witness :
    (gen_with_retry oracleFFO 3).result = Except.ok "hi" ∧
    (gen_with_retry oracleFFO 3).attempts = 2 + 1 :=
  (gen_with_retry_attempt_policy oracleFFO).2.1 2 "hi" (by omega) rfl
    (fun j hj => by interval_cases j <;> exact ⟨_, rfl⟩)

/-- C8: when all three attempts fail, the waits are exactly 2, 4, 6
time-units, totalling 12. -/
theorem gen_with_retry_backoff (oracle : Nat → Except String String)
    (e0 e1 e2 : String) (h0 : oracle 0 = Except.error e0)
    (h1 : oracle 1 = Except.error e1) (h2 : oracle 2 = Except.error e2) :
    (gen_with_retry oracle 3).sleeps = [2, 4, 6] ∧
    (gen_with_retry oracle 3).sleeps.sum = 12 := by
  have hs : (gen_with_retry oracle 3).sleeps = [2, 4, 6] := by
    rw [gen_with_retry_three]; simp [h0, h1, h2]
  exact ⟨hs, by rw [hs]; decide⟩

/-- C8 witness: the all-fail oracle sleeps 2, 4, 6 for a total of 12. -/
theorem gen_with_retry_backoff_witness :
    (gen_with_retry oracleAllFail 3).sleeps = [2, 4, 6] ∧
    (gen_with_retry oracleAllFail 3).sleeps.sum = 12 :=
  gen_with_retry_backoff oracleAllFail _ _ _ rfl rfl rfl

/-- C2: the prompt is exactly the four sections in order, and the notes
block is the `(none)` placeholder for blank notes and the untruncated
literal notes text otherwise (the notes appear verbatim inside the
prompt). -/
theorem build_prompt_four_sections (mode question notes : String) :
    build_prompt mode question notes =
      base_prompt ++ mode_line mode ++ notes_block notes ++
        ("\nQUESTION:\n" ++ question ++ "\n\nANSWER:\n") ∧
    (pyStrip notes = "" → notes_block notes = "\nNOTES: (none)\n") ∧
    (pyStrip notes ≠ "" →
      notes_block notes = "\nNOTES:\n" ++ notes ++ "\n" ∧
      ∃ pre post, build_prompt mode question notes = pre ++ (notes ++ post)) := by
  refine ⟨?_, fun h => by simp [notes_block, h], fun h => ⟨by simp [notes_block, h], ?_⟩⟩
  · simp [build_prompt, str_append_assoc]
  · refine ⟨base_prompt ++ mode_line mode ++ "\nNOTES:\n",
      "\n\nQUESTION:\n" ++ (question ++ "\n\nANSWER:\n"), ?_⟩
    simp [build_prompt, notes_block, h, str_append_assoc]

/-- C2 witness: blank notes yield the placeholder block, non-blank notes
the literal block. -/
theorem build_prompt_four_sections_witness :
    notes_block "  " = "\nNOTES: (none)\n" ∧
    notes_block "my notes" = "\nNOTES:\n" ++ "my notes" ++ "\n" :=
  ⟨(build_prompt_four_sections "exam" "Q?" "  ").2.1 (by decide),
   ((build_prompt_four_sections "exam" "Q?" "my notes").2.2 (by decide)).1⟩

set_option maxRecDepth 16384 in
/-- C3 counterexample: the unrecognized mode "review" does not produce the
same instruction line (nor the same prompt) as mode "explain": the
fallback line is the bare "Mode: EXPLAIN.\n", not the explain entry. -/
theorem mode_line_fallback_cex :
    mode_line "review" ≠ mode_line "explain" ∧
    build_prompt "review" "Q" "N" ≠ build_prompt "explain" "Q" "N" := by
  constructor <;> decide

set_option maxRecDepth 16384 in
/-- C3 amended: every unrecognized mode yields the fixed fallback line
"Mode: EXPLAIN.\n", which differs from the instruction line emitted for
mode "explain". -/
theorem mode_line_fallback (mode : String) (h1 : mode ≠ "explain")
    (h2 : mode ≠ "exam") (h3 : mode ≠ "revision") :
    mode_line mode = "Mode: EXPLAIN.\n" ∧
    mode_line mode ≠ mode_line "explain" := by
  have e1 : (mode == "explain") = false := by simp [h1]
  have e2 : (mode == "exam") = false := by simp [h2]
  have e3 : (mode == "revision") = false := by simp [h3]
  have hm : mode_line mode = "Mode: EXPLAIN.\n" := by
    simp [mode_line, mode_table, List.lookup, e1, e2, e3]
  refine ⟨hm, ?_⟩
  rw [hm]
  decide

/-- C3 amended witness: the unknown mode "review" gets the fallback line. -/
theorem mode_line_fallback_witness :
    mode_line "review" = "Mode: EXPLAIN.\n" ∧
    mode_line "review" ≠ mode_line "explain" :=
  mode_line_fallback "review" (by decide) (by decide) (by decide)



/-- C4: a blank or whitespace-only question short-circuits to the
validation error with zero collaborator calls. -/
theorem home_blank_question (mode question : String) (pdf : Option PdfParse)
    (image : Bool) (ocrOracle genOracle : Nat → Except String String)
    (hq : pyStrip question = "") :
    home mode question pdf image ocrOracle genOracle =
      { answer_html := "", error := "Please type your question.",
        extractCalled := false, ocrCalled := false, genCalled := false,
        notesUsed := none, promptUsed := none } := by
  simp [home, hq]

/-- C4 witness: a whitespace-only question with a PDF and image attached
still produces only the validation error. -/
theorem home_blank_question_witness :
    home "explain" " \t " (some (PdfParse.pages ["text"])) true oracleOk oracleOk =
      { answer_html := "", error := "Please type your question.",
        extractCalled := false, ocrCalled := false, genCalled := false,
        notesUsed := none, promptUsed := none } :=
  home_blank_question "explain" " \t " (some (PdfParse.pages ["text"])) true
    oracleOk oracleOk (by decide)

/-- The loop accumulator `pdf_parts` is the stripped pages with the blank ones filtered out. -/
theorem pdf_parts_eq (ps : List String) :
    pdf_parts ps = (ps.map pyStrip).filter (fun t => t != "") := by
  induction ps with
  | nil => rfl
  | cons p rest ih => by_cases h : pyStrip p = "" <;> simp [pdf_parts, h, ih]

/-- C5: the extractor is total; a parse failure gives `""`; pages are
stripped, blank pages dropped, survivors joined by a blank line and the
whole trimmed; all-blank documents give exactly `""`. -/
theorem extract_pdf_text_total_spec :
    extract_pdf_text PdfParse.failure = "" ∧
    (∀ ps, extract_pdf_text (PdfParse.pages ps) =
      pyStrip (String.intercalate "\n\n"
        ((ps.map pyStrip).filter (fun t => t != "")))) ∧
    (∀ ps, (∀ p ∈ ps, pyStrip p = "") →
      extract_pdf_text (PdfParse.pages ps) = "") := by
  have hparts : ∀ ps : List String, (∀ p ∈ ps, pyStrip p = "") →
      pdf_parts ps = [] := by
    intro ps
    induction ps with
    | nil => intro _; rfl
    | cons p rest ih =>
      intro h
      simp [pdf_parts, h p (by simp)]
      exact ih (fun q hq => h q (by simp [hq]))
  refine ⟨rfl, fun ps => by simp [extract_pdf_text, pdf_parts_eq], fun ps h => ?_⟩
  calc extract_pdf_text (PdfParse.pages ps)
      = pyStrip (String.intercalate "\n\n" (pdf_parts ps)) := rfl
    _ = pyStrip (String.intercalate "\n\n" []) := by rw [hparts ps h]
    _ = "" := by decide

/-- C5 witness: an all-blank document extracts to `""`; a mixed document
follows the strip/filter/join/trim description. -/
theorem extract_pdf_text_total_spec_witness :
    extract_pdf_text (PdfParse.pages ["  ", "\t"]) = "" ∧
    extract_pdf_text (PdfParse.pages ["  a ", " ", "b"]) =
      pyStrip (String.intercalate "\n\n"
        (((["  a ", " ", "b"] : List String).map pyStrip).filter (fun t => t != ""))) :=
  ⟨extract_pdf_text_total_spec.2.2 ["  ", "\t"] (by decide),
   extract_pdf_text_total_spec.2.1 ["  a ", " ", "b"]⟩

/-- C6: an attached PDF that extracts to `""` terminates the request with
the unreadable-document message; neither the transcriber nor the
generation client is ever invoked. -/
theorem home_unreadable_pdf (mode question : String) (p : PdfParse)
    (image : Bool) (ocrOracle genOracle : Nat → Except String String)
    (hq : pyStrip question ≠ "") (hp : extract_pdf_text p = "") :
    home mode question (some p) image ocrOracle genOracle =
      { answer_html := "",
        error := "This PDF looks scanned/handwritten. Please upload clear images instead.",
        extractCalled := true, ocrCalled := false, genCalled := false,
        notesUsed := none, promptUsed := none } := by
  simp [home, hq, hp]

/-- C6 witness: a corrupt PDF with an image attached still short-circuits
before OCR and generation. -/
theorem home_unreadable_pdf_witness :
    home "exam" "q" (some PdfParse.failure) true oracleOk oracleOk =
      { answer_html := "",
        error := "This PDF looks scanned/handwritten. Please upload clear images instead.",
        extractCalled := true, ocrCalled := false, genCalled := false,
        notesUsed := none, promptUsed := none } :=
  home_unreadable_pdf "exam" "q" PdfParse.failure true oracleOk oracleOk
    (by decide) rfl

/-- C7: a transcription failure propagates out of the transcriber
unchanged and the orchestrator reports it wrapped, without composing a
prompt or generating an answer. -/
theorem ocr_failure_short_circuits (mode question : String)
    (pdf : Option PdfParse) (ocrOracle genOracle : Nat → Except String String)
    (e0 e1 e2 : String) (hq : pyStrip question ≠ "")
    (h0 : ocrOracle 0 = Except.error e0) (h1 : ocrOracle 1 = Except.error e1)
    (h2 : ocrOracle 2 = Except.error e2)
    (hpdf : pdf = none ∨ ∃ p, pdf = some p ∧ extract_pdf_text p ≠ "") :
    ocr_image_with_gemini ocrOracle = Except.error (some e2) ∧
    (home mode question pdf true ocrOracle genOracle).error =
      "Image OCR failed: " ++ e2 ∧
    (home mode question pdf true ocrOracle genOracle).ocrCalled = true ∧
    (home mode question pdf true ocrOracle genOracle).genCalled = false ∧
    (home mode question pdf true ocrOracle genOracle).promptUsed = none := by
  have hocr : ocr_image_with_gemini ocrOracle = Except.error (some e2) := by
    unfold ocr_image_with_gemini
    rw [gen_with_retry_three]
    simp [h0, h1, h2]
  refine ⟨hocr, ?_⟩
  rcases hpdf with rfl | ⟨p, rfl, hp⟩
  · simp [home, home_after_pdf, hq, hocr, str_of_err]
  · simp [home, home_after_pdf, hq, hp, hocr, str_of_err]

/-- C7 witness: with every OCR attempt failing as "boom", the request ends
in the wrapped OCR error and generation is never reached. -/
theorem ocr_failure_short_circuits_witness :
    ocr_image_with_gemini oracleAllFail = Except.error (some "boom") ∧
    (home "explain" "q" none true oracleAllFail oracleOk).error =
      "Image OCR failed: " ++ "boom" ∧
    (home "explain" "q" none true oracleAllFail oracleOk).ocrCalled = true ∧
    (home "explain" "q" none true oracleAllFail oracleOk).genCalled = false ∧
    (home "explain" "q" none true oracleAllFail oracleOk).promptUsed = none :=
  ocr_failure_short_circuits "explain" "q" none oracleAllFail oracleOk
    "boom" "boom" "boom" (by decide) rfl rfl rfl (Or.inl rfl)

/-- No newline character survives the final single-break replacement pass:
replacing every occurrence of the one-character pattern `[c]` by a
`c`-free replacement leaves no `c`. -/
theorem replaceFuel_single_elim (c : Char) (rep : List Char) (hrep : c ∉ rep) :
    ∀ (fuel : Nat) (s : List Char), s.length ≤ fuel →
      c ∉ replaceFuel fuel s [c] rep := by
  intro fuel
  induction fuel with
  | zero =>
    intro s hs
    have h0 : s = [] := List.eq_nil_of_length_eq_zero (Nat.le_zero.mp hs)
    subst h0
    simp [replaceFuel]
  | succ n ih =>
    intro s hs
    cases s with
    | nil => simp [replaceFuel]
    | cons d rest =>
      by_cases hd : c = d
      · subst hd
        have hpre : pyStartsWith [c] (c :: rest) = true := by
          simp [pyStartsWith]
        simp [replaceFuel, hpre, hrep]
        exact ih rest (by simpa using hs)
      · have hpre : pyStartsWith [c] (d :: rest) = false := by
          simp [pyStartsWith, hd]
        simp [replaceFuel, hpre]
        exact ⟨hd, ih rest (by simpa using hs)⟩

/-- The single-break pass leaves no newline behind. -/
theorem pyReplace_newline_elim (s : String) :
    ('\n' : Char) ∉ (pyReplace s "\n" "<br>").data := by
  show ('\n' : Char) ∉ replaceFuel s.data.length s.data "\n".data "<br>".data
  have hdata : ("\n" : String).data = ['\n'] := rfl
  rw [hdata]
  exact replaceFuel_single_elim _ _ (by decide) _ _ (le_refl _)

/-- C9: the formatter maps `""` to `""`; it is exactly the composition
normalize-CRLF, then double-break, then single-break (in that order); no
raw newline survives it; and a double break becomes one paragraph
marker. -/
theorem format_html_spec :
    format_html "" = "" ∧
    (∀ s, format_html s =
      pyReplace (pyReplace (pyReplace s "\r\n" "\n") "\n\n" "<br><br>")
        "\n" "<br>") ∧
    (∀ s, ('\n' : Char) ∉ (format_html s).data) ∧
    format_html "a\n\nb" = "a<br><br>b" ∧
    format_html "a\r\nb" = "a<br>b" := by
  refine ⟨rfl, ?_, ?_, by decide, by decide⟩
  · intro s
    by_cases h : s = ""
    · subst h; decide
    · simp [format_html, h]
  · intro s
    by_cases h : s = ""
    · subst h; decide
    · simp only [format_html, h, if_false]
      exact pyReplace_newline_elim _

/-- C10: a successful but empty transcription changes nothing: the notes
reaching the composer are the pre-image notes, no error is reported, and
generation proceeds. -/
theorem home_empty_transcription_keeps_notes (mode question : String)
    (pdf : Option PdfParse) (ocrOracle genOracle : Nat → Except String String)
    (t0 t : String) (hq : pyStrip question ≠ "")
    (h0 : ocrOracle 0 = Except.ok t0) (ht0 : pyStrip t0 = "")
    (hg : genOracle 0 = Except.ok t)
    (hpdf : pdf = none ∨ ∃ p, pdf = some p ∧ extract_pdf_text p ≠ "") :
    (home mode question pdf true ocrOracle genOracle).error = "" ∧
    (home mode question pdf true ocrOracle genOracle).genCalled = true ∧
    (home mode question pdf true ocrOracle genOracle).notesUsed =
      some (match pdf with
            | none => ""
            | some p => extract_pdf_text p) ∧
    (home mode question pdf true ocrOracle genOracle).promptUsed =
      some (build_prompt mode (pyStrip question)
        (match pdf with
         | none => ""
         | some p => extract_pdf_text p)) ∧
    (home mode question pdf true ocrOracle genOracle).answer_html =
      format_html t := by
  have hocr : ocr_image_with_gemini ocrOracle = Except.ok "" := by
    unfold ocr_image_with_gemini
    rw [gen_with_retry_three]
    simp [h0, ht0]
  have hgen : (gen_with_retry genOracle 3).result = Except.ok t := by
    rw [gen_with_retry_three]
    simp [hg]
  rcases hpdf with rfl | ⟨p, rfl, hp⟩
  · simp [home, home_after_pdf, home_generate, hq, hocr, hgen]
  · simp [home, home_after_pdf, home_generate, hq, hp, hocr, hgen]

/-- C10 witness: whitespace-only transcription with PDF notes "the notes"
leaves exactly those notes in the composed prompt and generation
succeeds. -/
theorem home_empty_transcription_keeps_notes_witness :
    (home "revision" " q " (some (PdfParse.pages ["the notes"])) true
        (fun _ => Except.ok "  ") oracleOk).error = "" ∧
    (home "revision" " q " (some (PdfParse.pages ["the notes"])) true
        (fun _ => Except.ok "  ") oracleOk).genCalled = true ∧
    (home "revision" " q " (some (PdfParse.pages ["the notes"])) true
        (fun _ => Except.ok "  ") oracleOk).notesUsed =
      some (match some (PdfParse.pages ["the notes"]) with
            | none => ""
            | some p => extract_pdf_text p) ∧
    (home "revision" " q " (some (PdfParse.pages ["the notes"])) true
        (fun _ => Except.ok "  ") oracleOk).promptUsed =
      some (build_prompt "revision" (pyStrip " q ")
        (match some (PdfParse.pages ["the notes"]) with
         | none => ""
         | some p => extract_pdf_text p)) ∧
    (home "revision" " q " (some (PdfParse.pages ["the notes"])) true
        (fun _ => Except.ok "  ") oracleOk).answer_html =
      format_html "answer" :=
  home_empty_transcription_keeps_notes "revision" " q "
    (some (PdfParse.pages ["the notes"])) (fun _ => Except.ok "  ") oracleOk
    "  " "answer" (by decide) rfl (by decide) rfl
    (Or.inr ⟨PdfParse.pages ["the notes"], rfl, by decide⟩)

end FocusStudy
